import Mathlib

set_option autoImplicit false

namespace JobflowRemote

/-!
Shallow embedding of `src/jobflow_remote/remote/host/remote.py` (class `RemoteHost`).

The remote side of the SSH connection is modelled as a `World`: a function from
(working directory, dispatched command string) to the outcome of running that
command.  The fabric transport primitives (`Connection.run`, `Connection.close`)
are modelled from fabric's documented semantics, and `shlex.quote` is modelled
from its CPython implementation.  Every transport-level operation performed by a
method is additionally recorded in a trace of `TransportOp`s, so that statements
such as "copy dispatches a remote `cp`, not a put/get pair" are expressible.
-/

/-- The constructor configuration of `RemoteHost.__init__` (remote.py lines 21-49):
host, user, port, config, gateway, forward_agent, connect_timeout, connect_kwargs,
inline_ssh_env, timeout_execute, keepalive, shell_cmd, login_shell.  Optional
arbitrary Python values (config, gateway, connect_kwargs) are modelled as
`Option String`; the defaults of the Python signature are `keepalive=60`,
`shell_cmd="bash"`, `login_shell=True`. -/
structure HostConfig where
  host : String
  user : Option String
  port : Option Nat
  config : Option String
  gateway : Option String
  forward_agent : Option Bool
  connect_timeout : Option Nat
  connect_kwargs : Option String
  inline_ssh_env : Option Bool
  timeout_execute : Option Nat
  keepalive : Nat
  shell_cmd : String
  login_shell : Bool
deriving DecidableEq

/-- State of the fabric `Connection` owned by a `RemoteHost`: either no transport
was ever opened (`fabric.Connection` starts with `transport = None`), or a live
transport whose teardown may or may not raise. -/
inductive ConnState where
  | absent
  | live (closeRaises : Bool)
deriving DecidableEq

/-- A `RemoteHost` instance: the immutable constructor configuration plus the
mutable `_connection` handle state. -/
structure RemoteHost where
  cfg : HostConfig
  conn : ConnState

/-- Modelled from the spec: `as_dict` is inherited through `BaseHost` (in
`jobflow_remote/remote/host/base.py`, not part of the sources here) from monty's
`MSONable`, which serializes exactly the constructor configuration fields and
excludes the private `_connection` handle ("Two configurations are equal iff
every field compares equal; equality is used to deduplicate/cache host handles,
not to compare live connection state"). -/
def RemoteHost.as_dict (h : RemoteHost) : HostConfig :=
  h.cfg

/-- `RemoteHost.__eq__` (remote.py lines 62-65): equality of the `as_dict`
serializations (the `isinstance` guard is vacuous here since both sides are
`RemoteHost`s). -/
def RemoteHost.eq (a b : RemoteHost) : Bool :=
  decide (a.as_dict = b.as_dict)

/-- The character class of CPython `shlex._find_unsafe`: a character is safe iff
it matches the pattern of word characters plus `@ % + = : , . / -` under
`re.ASCII`, i.e. ASCII letters, digits, underscore, or one of those ten
punctuation characters. -/
def shlexSafeChar (c : Char) : Bool :=
  decide (('a' ≤ c ∧ c ≤ 'z') ∨ ('A' ≤ c ∧ c ≤ 'Z') ∨ ('0' ≤ c ∧ c ≤ '9')) ||
    c == '_' || c == '@' || c == '%' || c == '+' || c == '=' || c == ':' ||
    c == ',' || c == '.' || c == '/' || c == '-'

/-- Character-level form of CPython `s.replace("'", "'\"'\"'")` used by
`shlex.quote`: every single quote is replaced by the five characters
quote, double-quote, quote, double-quote, quote. -/
def sqEscapeL : List Char → List Char
  | [] => []
  | c :: rest =>
    if c = '\'' then '\'' :: '"' :: '\'' :: '"' :: '\'' :: sqEscapeL rest
    else c :: sqEscapeL rest

/-- CPython `shlex.quote`: the empty string becomes `''`; a string with only
safe characters is returned unchanged; otherwise the string is wrapped in
single quotes with every inner single quote escaped as `'"'"'`. -/
def shlexQuote (s : String) : String :=
  if s = "" then "''"
  else if s.data.all shlexSafeChar then s
  else "'" ++ String.mk (sqEscapeL s.data) ++ "'"

/-- Outcome of asking the transport to run one dispatched command string:
either the command ran to completion on the remote (with captured stdout,
stderr and exit status), or it could not be dispatched / timed out, which
fabric surfaces as a raised exception carrying a message. -/
inductive RunOutcome where
  | completed (stdout stderr : String) (exited : Nat)
  | dispatchError (msg : String)
deriving DecidableEq

/-- The remote machine, as observed through the transport: what happens when a
given command string is run in a given working directory. -/
abbrev World := String → String → RunOutcome

/-- Modelled from fabric/invoke's documented `run` semantics: with `warn=True`
a nonzero exit status is returned as a result instead of raising
`UnexpectedExit` (with `warn=False` it raises); connection-level failures and
timeouts raise regardless of `warn`. -/
def fabricRun (warn : Bool) (o : RunOutcome) : Except String (String × String × Nat) :=
  match o with
  | RunOutcome.completed stdout stderr exited =>
    if exited ≠ 0 ∧ warn = false then Except.error "UnexpectedExit"
    else Except.ok (stdout, stderr, exited)
  | RunOutcome.dispatchError msg => Except.error msg

/-- A transport-level operation performed against the connection: running a
command remotely, or copying a file to/from the local machine. -/
inductive TransportOp where
  | run (workdir command : String) (timeout : Option Nat)
  | putFile (src dst : String)
  | getFile (src dst : String)
deriving DecidableEq

/-- True exactly for remote command executions (no local file transfer). -/
def TransportOp.isRun : TransportOp → Bool
  | TransportOp.run _ _ _ => true
  | _ => false

/-- `execute`'s handling of a `str | list[str]` command (remote.py lines 96-97):
a list of tokens is joined with single spaces (`" ".join(command)`), a plain
string passes through. -/
def buildCommandString : Sum String (List String) → String
  | Sum.inl s => s
  | Sum.inr tokens => String.intercalate " " tokens

/-- `execute`'s workdir defaulting (remote.py lines 100-103): a missing or
falsy (empty) workdir becomes `"."`. -/
def effWorkdir : Option String → String
  | none => "."
  | some s => if s = "" then "." else s

/-- `execute`'s timeout defaulting (remote.py line 104):
`timeout = timeout or self.timeout_execute`, with Python falsiness (both
`None` and `0` fall back to the configured default). -/
def effTimeout (timeout default_ : Option Nat) : Option Nat :=
  match timeout with
  | none => default_
  | some n => if n = 0 then default_ else some n

/-- The shell-wrapping step of `execute` (remote.py lines 106-113): when
`shell_cmd` is non-empty (truthy), the dispatched command is
`shell_cmd`, plus `" -l "` when `login_shell` is set, plus `" -c "`, plus the
`shlex.quote` of the command; otherwise the command string itself. -/
def buildRemoteCommand (cfg : HostConfig) (command : String) : String :=
  if cfg.shell_cmd ≠ "" then
    let shell_cmd := cfg.shell_cmd
    let shell_cmd := if cfg.login_shell then shell_cmd ++ " -l " else shell_cmd
    let shell_cmd := shell_cmd ++ " -c "
    shell_cmd ++ shlexQuote command
  else command

/-- `RemoteHost.execute` (remote.py lines 71-120): join a token list, default
the workdir and timeout, shell-wrap the command, and run it through the
transport with `hide=True, warn=True`.  Returns the `(stdout, stderr, exited)`
triple on completion or propagates the transport's exception, together with
the trace of transport operations performed. -/
def RemoteHost.execute (h : RemoteHost) (w : World) (command : Sum String (List String))
    (workdir : Option String) (timeout : Option Nat) :
    Except String (String × String × Nat) × List TransportOp :=
  let command := buildCommandString command
  let workdir := effWorkdir workdir
  let timeout := effTimeout timeout h.cfg.timeout_execute
  let remote_command := buildRemoteCommand h.cfg command
  (fabricRun true (w workdir remote_command), [TransportOp.run workdir remote_command timeout])

/-- `RemoteHost.mkdir` (remote.py lines 122-139): build `"mkdir "`, plus
`"-p "` when `recursive`, plus the directory; run it through `execute`; return
`returncode == 0`, with any exception from `execute` caught and turned into
`False` (the warning log is not modelled).  `exist_ok` is accepted but unused,
as in the source. -/
def RemoteHost.mkdir (h : RemoteHost) (w : World) (directory : String)
    (recursive : Bool) (exist_ok : Bool) : Bool × List TransportOp :=
  let command := "mkdir "
  let command := if recursive then command ++ "-p " else command
  let command := command ++ directory
  match h.execute w (Sum.inl command) none none with
  | (Except.ok (_stdout, _stderr, returncode), ops) => (returncode == 0, ops)
  | (Except.error _, ops) => (false, ops)

/-- `RemoteHost.copy` (remote.py lines 169-171): build `cmd = ["cp", src, dst]`
and call `self.execute(cmd)`, discarding its result triple; exceptions from
`execute` propagate. -/
def RemoteHost.copy (h : RemoteHost) (w : World) (src dst : String) :
    Except String Unit × List TransportOp :=
  let cmd := [ "cp", src, dst ]
  let (res, ops) := h.execute w (Sum.inr cmd) none none
  (res.map (fun _ => ()), ops)

/-- `RemoteHost.put` (remote.py lines 163-164): a direct transport file copy
from the local machine to the host. -/
def RemoteHost.put (_h : RemoteHost) (src dst : String) : Unit × List TransportOp :=
  ((), [TransportOp.putFile src dst])

/-- `RemoteHost.get` (remote.py lines 166-167): a direct transport file copy
from the host to the local machine. -/
def RemoteHost.get (_h : RemoteHost) (src dst : String) : Unit × List TransportOp :=
  ((), [TransportOp.getFile src dst])

/-- Modelled from fabric's documented `Connection.close` semantics: "Terminate
the network connection to the remote end, if open.  If no connection is open,
this method does nothing." — closing a never-opened connection is a successful
no-op; closing a live transport may raise if teardown fails. -/
def fabricConnectionClose : ConnState → Except String Unit
  | ConnState.absent => Except.ok ()
  | ConnState.live closeRaises =>
    if closeRaises then Except.error "close failed" else Except.ok ()

/-- `RemoteHost.close` (remote.py lines 152-157): call `self.connection.close()`
inside `try`, returning `False` if it raises and `True` otherwise. -/
def RemoteHost.close (h : RemoteHost) : Bool :=
  match fabricConnectionClose h.conn with
  | Except.ok _ => true
  | Except.error _ => false

/-- Parsing state of a POSIX shell reading one word: outside quotes, inside
single quotes, inside double quotes, or right after an unquoted backslash. -/
inductive ShellMode where
  | out
  | sq
  | dq
  | esc
deriving DecidableEq

/-- Characters that are special to a POSIX shell outside of quotes (whitespace,
expansion and control operators); an unquoted occurrence means the input is not
one literal word. -/
def shellSpecialChar (c : Char) : Bool :=
  c == ' ' || c == '\t' || c == '\n' || c == '$' || c == ';' || c == '&' ||
    c == '|' || c == '<' || c == '>' || c == '(' || c == ')' || c == '*' ||
    c == '?' || c == '~' || c == '#' || c == '!' || c == Char.ofNat 96 ||
    c == Char.ofNat 123 || c == Char.ofNat 125 || c == '[' || c == ']'

/-- A POSIX shell's reading of its input as one single word: single quotes make
everything literal until the closing quote; double quotes make characters
literal except `$`, backquote and backslash (conservatively rejected);
backslash outside quotes escapes the next character; an unquoted special
character means the input is not one word. -/
def parseShellWordAux : ShellMode → List Char → Option (List Char)
  | ShellMode.out, [] => some []
  | ShellMode.out, c :: rest =>
    if c = '\'' then parseShellWordAux ShellMode.sq rest
    else if c = '"' then parseShellWordAux ShellMode.dq rest
    else if c = '\\' then parseShellWordAux ShellMode.esc rest
    else if shellSpecialChar c then none
    else (parseShellWordAux ShellMode.out rest).map (fun l => c :: l)
  | ShellMode.esc, [] => none
  | ShellMode.esc, d :: rest => (parseShellWordAux ShellMode.out rest).map (fun l => d :: l)
  | ShellMode.sq, [] => none
  | ShellMode.sq, c :: rest =>
    if c = '\'' then parseShellWordAux ShellMode.out rest
    else (parseShellWordAux ShellMode.sq rest).map (fun l => c :: l)
  | ShellMode.dq, [] => none
  | ShellMode.dq, c :: rest =>
    if c = '"' then parseShellWordAux ShellMode.out rest
    else if c = '\\' then none
    else if c = '$' then none
    else if c = Char.ofNat 96 then none
    else (parseShellWordAux ShellMode.dq rest).map (fun l => c :: l)

/-- The single shell word denoted by a string, when it is one. -/
def parseShellWord (s : String) : Option String :=
  (parseShellWordAux ShellMode.out s.data).map String.mk

/-- A concrete configuration with the Python defaults
(`keepalive=60`, `shell_cmd="bash"`, `login_shell=True`). -/
def cfg0 : HostConfig :=
  ⟨"example.com", none, none, none, none, none, none, none, none, none, 60, "bash", true⟩

/-- The same configuration with a different port. -/
def cfgPort : HostConfig :=
  ⟨"example.com", none, some 2222, none, none, none, none, none, none, none, 60, "bash", true⟩

/-- A freshly constructed host: `connect()` was never called, so the fabric
connection has no transport. -/
def host0 : RemoteHost :=
  ⟨cfg0, ConnState.absent⟩

/-- A remote on which every command completes with empty output and exit 7. -/
def world7 : World := fun _ _ => RunOutcome.completed "" "" 7

/-- A remote on which every command completes with empty output and exit 0. -/
def world0 : World := fun _ _ => RunOutcome.completed "" "" 0

/-- Closed form of the shell-wrapping step: either the verbatim command (empty
`shell_cmd`) or the concatenation `shell_cmd`, optional `" -l "`, `" -c "`, and
the quoted command. -/
theorem buildRemoteCommand_eq (cfg : HostConfig) (c : String) :
    buildRemoteCommand cfg c =
      if cfg.shell_cmd = "" then c
      else cfg.shell_cmd ++ (if cfg.login_shell then " -l " else "") ++ " -c " ++
        shlexQuote c := by
  by_cases hs : cfg.shell_cmd = "" <;> by_cases hl : cfg.login_shell <;>
    simp [buildRemoteCommand, hs, hl]

/-- C1: for every command that the transport actually runs to completion,
`execute` returns the `(stdout, stderr, exitCode)` triple as data even when the
exit code is nonzero, and it produces an error only when the transport reports
that the command could not be dispatched. -/
theorem execute_completed_returns_triple (h : RemoteHost) (w : World)
    (command : Sum String (List String)) (workdir : Option String) (timeout : Option Nat) :
    (∀ stdout stderr exited,
      w (effWorkdir workdir) (buildRemoteCommand h.cfg (buildCommandString command)) =
          RunOutcome.completed stdout stderr exited →
        (h.execute w command workdir timeout).1 = Except.ok (stdout, stderr, exited)) ∧
    (∀ msg, (h.execute w command workdir timeout).1 = Except.error msg →
      w (effWorkdir workdir) (buildRemoteCommand h.cfg (buildCommandString command)) =
        RunOutcome.dispatchError msg) := by
  constructor
  · intro stdout stderr exited hrun
    simp [RemoteHost.execute, fabricRun, hrun]
  · intro msg herr
    rcases hw : w (effWorkdir workdir) (buildRemoteCommand h.cfg (buildCommandString command))
      with ⟨s, e, c⟩ | m
    · simp [RemoteHost.execute, fabricRun, hw] at herr
    · simp [RemoteHost.execute, fabricRun, hw] at herr
      rw [herr]

/-- Witness for C1: on a remote where the command completes with exit code 7,
`execute` returns `("", "", 7)` as data. -/
theorem execute_completed_returns_triple_witness :
    (host0.execute world7 (Sum.inl "exit 7") none none).1 = Except.ok ("", "", 7) :=
  (execute_completed_returns_triple host0 world7 (Sum.inl "exit 7") none none).1 "" "" 7 rfl

/-- C2: the dispatched command is exactly `shell_cmd` + (`" -l "` when the
login-shell flag is set) + `" -c "` + the `shlex.quote` of the command when
`shell_cmd` is non-empty, and the (joined) command string verbatim when
`shell_cmd` is empty. -/
theorem execute_dispatched_command (h : RemoteHost) (w : World)
    (command : Sum String (List String)) (workdir : Option String) (timeout : Option Nat) :
    (h.execute w command workdir timeout).2 =
      [TransportOp.run (effWorkdir workdir)
        (if h.cfg.shell_cmd = "" then buildCommandString command
         else h.cfg.shell_cmd ++ (if h.cfg.login_shell then " -l " else "") ++ " -c " ++
           shlexQuote (buildCommandString command))
        (effTimeout timeout h.cfg.timeout_execute)] := by
  simp [RemoteHost.execute, buildRemoteCommand_eq]

/-- Counterexample to C3 as stated: on a Host whose `connect()` was never
called the fabric connection holds no transport, its `close()` is a successful
no-op, and `RemoteHost.close` returns `true`, not `false`. -/
theorem close_unconnected_counterexample :
    host0.conn = ConnState.absent ∧ RemoteHost.close host0 ≠ false := by
  exact ⟨rfl, by decide⟩

/-- C3 (amended): `close()` never raises and returns `false` exactly when the
transport teardown itself raises; on a Host whose `connect()` was never called
the teardown is a successful no-op, so `close()` returns `true`. -/
theorem close_contract (h : RemoteHost) :
    (RemoteHost.close h = false ↔ ∃ msg, fabricConnectionClose h.conn = Except.error msg) ∧
    (h.conn = ConnState.absent → RemoteHost.close h = true) := by
  constructor
  · cases hc : fabricConnectionClose h.conn with
    | ok u => simp [RemoteHost.close, hc]
    | error m => simp [RemoteHost.close, hc]
  · intro ha
    simp [RemoteHost.close, ha, fabricConnectionClose]

/-- Witness for C3 (amended): the never-connected host closes successfully. -/
theorem close_contract_witness : RemoteHost.close host0 = true :=
  (close_contract host0).2 rfl

/-- C4: `mkdir` never propagates (it is a total Boolean-valued operation over
every transport outcome, dispatch errors included) and returns `true` exactly
when the executed `mkdir` command completed with exit code 0. -/
theorem mkdir_true_iff_exit_zero (h : RemoteHost) (w : World) (directory : String)
    (recursive exist_ok : Bool) :
    (h.mkdir w directory recursive exist_ok).1 = true ↔
      ∃ stdout stderr,
        w "." (buildRemoteCommand h.cfg
            ("mkdir " ++ (if recursive then "-p " else "") ++ directory)) =
          RunOutcome.completed stdout stderr 0 := by
  have hcmd : "mkdir " ++ (if recursive then "-p " else "") ++ directory =
      (if recursive then "mkdir -p " else "mkdir ") ++ directory := by
    cases recursive <;> simp
  rw [hcmd]
  rcases hw : w "." (buildRemoteCommand h.cfg
      ((if recursive then "mkdir -p " else "mkdir ") ++ directory)) with ⟨s, e, c⟩ | m <;>
    simp [RemoteHost.mkdir, RemoteHost.execute, buildCommandString, effWorkdir, effTimeout,
      fabricRun, hw]

/-- C5: a token-list command is joined with single spaces into one string, with
no token individually quoted or escaped, so `execute` on a token list behaves
exactly as on the plain space-join; in particular a token containing a space is
indistinguishable from two separate tokens. -/
theorem execute_joins_tokens (h : RemoteHost) (w : World) (tokens : List String)
    (workdir : Option String) (timeout : Option Nat) :
    h.execute w (Sum.inr tokens) workdir timeout =
      h.execute w (Sum.inl (String.intercalate " " tokens)) workdir timeout ∧
    buildCommandString (Sum.inr ["a b", "c"]) = buildCommandString (Sum.inr ["a", "b", "c"]) := by
  exact ⟨rfl, by decide⟩

/-- Inside single quotes, the escaped text followed by the closing quote parses
back to the original text: every plain character is literal, and each escaped
single quote steps through close-quote, a double-quoted quote, and re-open. -/
theorem parseShellWordAux_sq_escape (s : List Char) :
    parseShellWordAux ShellMode.sq (sqEscapeL s ++ ['\'']) = some s := by
  induction s with
  | nil => rfl
  | cons c rest ih =>
    by_cases hc : c = '\''
    · subst hc
      simp [sqEscapeL, parseShellWordAux, ih]
    · simp [sqEscapeL, hc, parseShellWordAux, ih]

/-- A string containing a single quote takes the quoted branch of
`shlex.quote`: it is wrapped in single quotes with its quotes escaped. -/
theorem shlexQuote_of_mem (s : String) (hq : '\'' ∈ s.data) :
    shlexQuote s = "'" ++ String.mk (sqEscapeL s.data) ++ "'" := by
  have hne : ¬ s = "" := by
    intro h
    subst h
    simp at hq
  have hall : ¬ s.data.all shlexSafeChar = true := by
    intro h
    have hsafe := List.all_eq_true.mp h '\'' hq
    simp [shlexSafeChar] at hsafe
  simp [shlexQuote, hne, hall]

/-- Round trip for commands containing a single quote: the shell parses the
`shlex.quote` of the command back to the command itself. -/
theorem parseShellWord_quote_of_mem (s : String) (hq : '\'' ∈ s.data) :
    parseShellWord (shlexQuote s) = some s := by
  rw [shlexQuote_of_mem s hq]
  show (parseShellWordAux ShellMode.out
    (("'" ++ String.mk (sqEscapeL s.data) ++ "'").data)).map String.mk = some s
  have hdata : ("'" ++ String.mk (sqEscapeL s.data) ++ "'").data =
      '\'' :: (sqEscapeL s.data ++ ['\'']) := rfl
  rw [hdata]
  have hstep : parseShellWordAux ShellMode.out ('\'' :: (sqEscapeL s.data ++ ['\''])) =
      parseShellWordAux ShellMode.sq (sqEscapeL s.data ++ ['\'']) := by
    simp [parseShellWordAux]
  rw [hstep, parseShellWordAux_sq_escape]
  rfl

/-- C6: with a non-empty shell invocation and the login flag set, the
dispatched command is the shell prefix followed by the `shlex.quote` of the
command, and the outer shell's parse of that quoted argument is exactly the
original command — in particular its literal single quote survives. -/
theorem execute_preserves_single_quote (h : RemoteHost) (w : World) (c : String)
    (workdir : Option String) (timeout : Option Nat)
    (hshell : ¬ h.cfg.shell_cmd = "") (hlogin : h.cfg.login_shell = true)
    (hq : '\'' ∈ c.data) :
    (h.execute w (Sum.inl c) workdir timeout).2 =
      [TransportOp.run (effWorkdir workdir)
        (h.cfg.shell_cmd ++ " -l " ++ " -c " ++ shlexQuote c)
        (effTimeout timeout h.cfg.timeout_execute)] ∧
    parseShellWord (shlexQuote c) = some c := by
  constructor
  · simp [RemoteHost.execute, buildRemoteCommand, buildCommandString, hshell, hlogin]
  · exact parseShellWord_quote_of_mem c hq

/-- Witness for C6: the command `say 'hi'` with the default configuration
(`shell_cmd="bash"`, `login_shell=True`). -/
theorem execute_preserves_single_quote_witness :
    (host0.execute world7 (Sum.inl "say 'hi'") none none).2 =
      [TransportOp.run (effWorkdir none)
        (host0.cfg.shell_cmd ++ " -l " ++ " -c " ++ shlexQuote "say 'hi'")
        (effTimeout none host0.cfg.timeout_execute)] ∧
    parseShellWord (shlexQuote "say 'hi'") = some "say 'hi'" :=
  execute_preserves_single_quote host0 world7 "say 'hi'" none none
    (by decide) (by decide) (by decide)

/-- C7: two `RemoteHost` instances compare equal exactly when all of their
configuration fields are equal — the connection state (part of neither side's
`as_dict`) plays no role, and a differing field such as the port makes them
unequal. -/
theorem host_eq_iff_config (a b : RemoteHost) :
    (RemoteHost.eq a b = true ↔ a.cfg = b.cfg) ∧
    (a.cfg.port ≠ b.cfg.port → RemoteHost.eq a b = false) := by
  constructor
  · simp [RemoteHost.eq, RemoteHost.as_dict]
  · intro hp
    simp only [RemoteHost.eq, RemoteHost.as_dict, decide_eq_false_iff_not]
    intro hcfg
    exact hp (by rw [hcfg])

/-- Witness for C7: the same configuration with a changed port compares
unequal, even with different connection states on the two sides. -/
theorem host_eq_iff_config_witness :
    RemoteHost.eq host0 (RemoteHost.mk cfgPort (ConnState.live true)) = false :=
  (host_eq_iff_config host0 (RemoteHost.mk cfgPort (ConnState.live true))).2 (by decide)

/-- C8: `copy` performs exactly one transport operation, the remote execution
of the space-join of `["cp", src, dst]` (shell-wrapped like every `execute`
call), and no local file transfer (`put`/`get`) at all. -/
theorem copy_runs_remote_cp (h : RemoteHost) (w : World) (src dst : String) :
    (h.copy w src dst).2 =
      [TransportOp.run "." (buildRemoteCommand h.cfg ("cp " ++ src ++ " " ++ dst))
        h.cfg.timeout_execute] ∧
    (h.copy w src dst).2.all TransportOp.isRun = true := by
  have hjoin : String.intercalate " " ["cp", src, dst] = "cp " ++ src ++ " " ++ dst := by
    simp [String.intercalate, String.intercalate.go]
  constructor
  · simp [RemoteHost.copy, RemoteHost.execute, buildCommandString, effWorkdir, effTimeout, hjoin]
  · simp [RemoteHost.copy, RemoteHost.execute, TransportOp.isRun]

/-- C9: `copy` discards the result triple of its underlying `execute` call:
whenever the remote `cp` command runs to completion — with any exit code — the
call returns `()` with no error indication, and its observable behavior is
identical for any two completed outcomes (for instance exit 7 versus exit 0). -/
theorem copy_discards_result (h : RemoteHost) (w w2 : World) (src dst : String)
    (s e s2 e2 : String) (c c2 : Nat)
    (hrun : w "." (buildRemoteCommand h.cfg (String.intercalate " " ["cp", src, dst])) =
      RunOutcome.completed s e c)
    (hrun2 : w2 "." (buildRemoteCommand h.cfg (String.intercalate " " ["cp", src, dst])) =
      RunOutcome.completed s2 e2 c2) :
    (h.copy w src dst).1 = Except.ok () ∧ h.copy w src dst = h.copy w2 src dst := by
  constructor
  · simp [RemoteHost.copy, RemoteHost.execute, buildCommandString, effWorkdir, effTimeout,
      fabricRun, hrun, Except.map]
  · simp [RemoteHost.copy, RemoteHost.execute, buildCommandString, effWorkdir, effTimeout,
      fabricRun, hrun, hrun2, Except.map]

/-- Witness for C9: a `cp` that exits 7 is indistinguishable at the call site
from one that exits 0. -/
theorem copy_discards_result_witness :
    (host0.copy world7 "a.txt" "b.txt").1 = Except.ok () ∧
    host0.copy world7 "a.txt" "b.txt" = host0.copy world0 "a.txt" "b.txt" :=
  copy_discards_result host0 world7 world0 "a.txt" "b.txt" "" "" "" "" 7 0 rfl rfl

/-- C10: `exist_ok` has no effect on `mkdir`: the full observable behavior
(returned Boolean and dispatched transport operations) is identical for
`exist_ok=true` and `exist_ok=false`, and the single dispatched command is
determined by `recursive` and the directory alone. -/
theorem mkdir_exist_ok_no_effect (h : RemoteHost) (w : World) (directory : String)
    (recursive : Bool) :
    h.mkdir w directory recursive true = h.mkdir w directory recursive false ∧
    (h.mkdir w directory recursive true).2 =
      [TransportOp.run "."
        (buildRemoteCommand h.cfg ("mkdir " ++ (if recursive then "-p " else "") ++ directory))
        h.cfg.timeout_execute] := by
  constructor
  · rfl
  · have hcmd : "mkdir " ++ (if recursive then "-p " else "") ++ directory =
        (if recursive then "mkdir -p " else "mkdir ") ++ directory := by
      cases recursive <;> simp
    rw [hcmd]
    rcases hw : w "." (buildRemoteCommand h.cfg
        ((if recursive then "mkdir -p " else "mkdir ") ++ directory)) with ⟨s, e, c⟩ | m <;>
      simp [RemoteHost.mkdir, RemoteHost.execute, buildCommandString, effWorkdir, effTimeout,
        fabricRun, hw]

end JobflowRemote
